import Mathlib

/-!
Shallow embedding of the `symonk/profiler` Go library (profiler.go,
strategy.go, options.go, file.go) for checking its specification.

The embedding models:
- the process-wide guard `profilingActive` and its compare-and-swap
  lifecycle (Start / Stop),
- the `Profiler` struct and its functional options,
- the strategy registry `StrategyMap` and the nine per-mode strategy
  functions, with their setup effects and the finalizer closures they
  return, as explicit data plus an interpreter `runTeardown`,
- the `Stop` sequence and its stderr report,
- `CreateProfileFile` and its temp-folder fallback.

External runtime facilities (pprof, trace, fgprof, the file system) are
modelled by explicit state in `World` and by environment flags in `Env`
that say which fallible external call fails.
-/

namespace Profiler

/-- Mode values as in the Go source: `type Mode int` with iota constants. -/
def CPUMode : Int := 0

/-- Go constant `MemoryHeapMode` (iota = 1). -/
def MemoryHeapMode : Int := 1

/-- Go constant `MemoryAllocMode` (iota = 2). -/
def MemoryAllocMode : Int := 2

/-- Go constant `BlockMode` (iota = 3). -/
def BlockMode : Int := 3

/-- Go constant `GoroutineMode` (iota = 4). -/
def GoroutineMode : Int := 4

/-- Go constant `MutexMode` (iota = 5). -/
def MutexMode : Int := 5

/-- Go constant `ThreadCreateMode` (iota = 6). -/
def ThreadCreateMode : Int := 6

/-- Go constant `TraceMode` (iota = 7). -/
def TraceMode : Int := 7

/-- Go constant `ClockMode` (iota = 8). -/
def ClockMode : Int := 8

/-- Fixed output file name for CPU profiling (`CPUFileName`). -/
def CPUFileName : String := "cpu.pprof"

/-- Fixed output file name shared by heap and alloc profiling (`MemoryFileName`). -/
def MemoryFileName : String := "memory.pprof"

/-- Fixed output file name for block profiling (`BlockFileName`). -/
def BlockFileName : String := "block.pprof"

/-- Fixed output file name for goroutine profiling (`GoroutineFileName`). -/
def GoroutineFileName : String := "goroutine.pprof"

/-- Fixed output file name for mutex profiling (`MutexFileName`). -/
def MutexFileName : String := "mutex.pprof"

/-- Fixed output file name for thread-creation profiling (`ThreadCreateFileName`). -/
def ThreadCreateFileName : String := "threadcreate.pprof"

/-- Fixed output file name for execution tracing (`TraceFileName`). -/
def TraceFileName : String := "trace.out"

/-- Fixed output file name for fgprof wall-clock profiling (`ClockFileName`). -/
def ClockFileName : String := "clock.pprof"

/-- Go constant `heapProfileName`, the pprof lookup key used by the heap strategy. -/
def heapProfileName : String := "heap"

/-- Go constant `allocProfileName`, the pprof lookup key used by the alloc strategy. -/
def allocProfileName : String := "allocs"

/-- Default value of `runtime.MemProfileRate` (512 * 1024), used by `New`. -/
def defaultMemProfileRate : Int := 524288

/-- The `Profiler` struct of profiler.go. The `callback` function field is
modelled by the flag `hasCallback` (whether `p.callback != nil`); the
`profileFile` handle is modelled by its path `profileFileName` together
with the `sinkOpen` flag of `World`. -/
structure ProfilerS where
  profileFolder : String
  profileFileName : String
  signalHandling : Bool
  profileMode : Int
  memoryProfileRate : Int
  quiet : Bool
  hasCallback : Bool
  live : Bool
  interrupted : Bool
deriving DecidableEq, Repr

/-- The zero-value-plus-defaults profiler built by `New` before options run. -/
def defaultProfiler : ProfilerS :=
  { profileFolder := "."
    profileFileName := ""
    signalHandling := true
    profileMode := CPUMode
    memoryProfileRate := defaultMemProfileRate
    quiet := false
    hasCallback := false
    live := false
    interrupted := false }

/-- A functional option, as in options.go: `type ProfileOption func(*Profiler)`. -/
def ProfileOption : Type := ProfilerS → ProfilerS

/-- Go `New`: build the default profiler and apply each option in order. -/
def New (options : List ProfileOption) : ProfilerS :=
  options.foldl (fun p opt => opt p) defaultProfiler

/-- Option `WithProfileFileLocation`: sets the output folder. -/
def WithProfileFileLocation (path : String) : ProfileOption :=
  fun p => { p with profileFolder := path }

/-- Option `WithCPUProfiler`: selects CPU mode. -/
def WithCPUProfiler : ProfileOption :=
  fun p => { p with profileMode := CPUMode }

/-- Option `WithHeapMemoryProfiling`: selects heap memory mode. -/
def WithHeapMemoryProfiling : ProfileOption :=
  fun p => { p with profileMode := MemoryHeapMode }

/-- Option `WithAllocMemoryProfiling`: selects alloc memory mode. -/
def WithAllocMemoryProfiling : ProfileOption :=
  fun p => { p with profileMode := MemoryAllocMode }

/-- Option `WithMemoryProfilingRate`: sets the memory sampling rate. -/
def WithMemoryProfilingRate (rate : Int) : ProfileOption :=
  fun p => { p with memoryProfileRate := rate }

/-- Option `WithoutSignalHandling`: disables the signal watcher. -/
def WithoutSignalHandling : ProfileOption :=
  fun p => { p with signalHandling := false }

/-- Option `WithCallback`: installs a user callback (modelled as a flag). -/
def WithCallback : ProfileOption :=
  fun p => { p with hasCallback := true }

/-- Option `WithQuietOutput`: suppresses the report. -/
def WithQuietOutput : ProfileOption :=
  fun p => { p with quiet := true }

/-- Option `WithTracing`: selects trace mode. -/
def WithTracing : ProfileOption :=
  fun p => { p with profileMode := TraceMode }

/-- Option `WithRealTimeData`: sets the live flag. -/
def WithRealTimeData : ProfileOption :=
  fun p => { p with live := true }

/-- Option `WithMutexFraction` exactly as written in options.go: the body is
`p.profileMode = MutexMode` and the `rate` argument is not used anywhere. -/
def WithMutexFraction (rate : Int) : ProfileOption :=
  fun p => { p with profileMode := MutexMode }

/-- Option `WithClockProfiling`: selects fgprof wall-clock mode. -/
def WithClockProfiling : ProfileOption :=
  fun p => { p with profileMode := ClockMode }

/-- The nine strategy functions of strategy.go, as a closed enumeration. -/
inductive Strategy
  | cpu
  | heap
  | alloc
  | mutex
  | block
  | goroutine
  | threadCreate
  | traceStrat
  | clock
deriving DecidableEq, Repr

/-- Go `StrategyMap`: a map from `Mode` (an int) to the strategy function.
Lookup fails (returns `none`) for values outside the nine declared keys. -/
def StrategyMap (m : Int) : Option Strategy :=
  if m = CPUMode then some Strategy.cpu
  else if m = MemoryHeapMode then some Strategy.heap
  else if m = MemoryAllocMode then some Strategy.alloc
  else if m = MutexMode then some Strategy.mutex
  else if m = BlockMode then some Strategy.block
  else if m = GoroutineMode then some Strategy.goroutine
  else if m = ThreadCreateMode then some Strategy.threadCreate
  else if m = TraceMode then some Strategy.traceStrat
  else if m = ClockMode then some Strategy.clock
  else none

/-- Outcome of resolving the strategy inside `Start` (profiler.go lines
244 to 247): a missing map entry is a fatal `die`. -/
inductive StartOutcome
  | fatal (msg : String)
  | started (s : Strategy)
deriving DecidableEq, Repr

/-- The registry lookup performed by `Start`, including the defensive
fatal branch for an unknown mode. -/
def resolveStrategy (m : Int) : StartOutcome :=
  match StrategyMap m with
  | none => StartOutcome.fatal "profiler mode not implemented, this should never happen"
  | some s => StartOutcome.started s

/-- Global runtime state touched by the strategies: the shared
`runtime.MemProfileRate` setting, the mutex profile fraction (never touched
by this library), the block profile rate, the three kinds of streaming
capture, and whether the profile file sink is open. -/
structure World where
  memProfileRate : Int
  mutexProfileFraction : Int
  blockProfileRate : Int
  cpuActive : Bool
  traceActive : Bool
  fgActive : Bool
  sinkOpen : Bool
deriving DecidableEq, Repr

/-- Which fallible external calls fail in a given run. -/
structure Env where
  startCPUFails : Bool
  traceStartFails : Bool
  closeFails : Bool
deriving DecidableEq, Repr

/-- Observable effects performed by setup and teardown code, in order. -/
inductive Ev
  | openSink
  | stopStream
  | closeSink
  | snapshotWrite (profile : String)
  | gc
  | setMemRate (r : Int)
  | setBlockRate (r : Int)
deriving DecidableEq, Repr

/-- The finalizer closures returned by the strategy functions, as data.
The memory finalizer captures the pprof lookup key and the saved
`runtime.MemProfileRate` value read before setup mutated it. -/
inductive Teardown
  | cpu
  | memory (profileName : String) (savedRate : Int)
  | mutex
  | block
  | goroutine
  | threadCreate
  | traceTd
  | clock
deriving DecidableEq, Repr

/-- Error message standing for whatever `p.profileFile.Close()` returns
when it fails. -/
def closeErrMsg : String := "close failed"

/-- Interpreter for the finalizer closures of strategy.go, mirroring each
Go function body including its defer ordering (defers run last, in LIFO
order, so for the memory strategies the close runs after the snapshot
write and the rate restore runs last of all). The trace finalizer calls
only `trace.Stop()` and returns nil: it does not close the profile file. -/
def runTeardown : Teardown → Env → World → World × List Ev × Option String
  | Teardown.cpu, env, w =>
      ({ w with cpuActive := false, sinkOpen := false },
       [Ev.stopStream, Ev.closeSink],
       if env.closeFails then some closeErrMsg else none)
  | Teardown.memory profileName savedRate, env, w =>
      ({ w with sinkOpen := false, memProfileRate := savedRate },
       [Ev.snapshotWrite profileName, Ev.gc, Ev.closeSink, Ev.setMemRate savedRate],
       if env.closeFails then some closeErrMsg else none)
  | Teardown.mutex, env, w =>
      ({ w with sinkOpen := false },
       [Ev.closeSink],
       if env.closeFails then some closeErrMsg else none)
  | Teardown.block, env, w =>
      ({ w with sinkOpen := false, blockProfileRate := 0 },
       [Ev.snapshotWrite "block", Ev.closeSink, Ev.setBlockRate 0],
       if env.closeFails then some closeErrMsg else none)
  | Teardown.goroutine, env, w =>
      ({ w with sinkOpen := false },
       [Ev.closeSink],
       if env.closeFails then some closeErrMsg else none)
  | Teardown.threadCreate, env, w =>
      ({ w with sinkOpen := false },
       [Ev.snapshotWrite "threadcreate", Ev.closeSink],
       if env.closeFails then some closeErrMsg else none)
  | Teardown.traceTd, _env, w =>
      ({ w with traceActive := false },
       [Ev.stopStream],
       none)
  | Teardown.clock, env, w =>
      ({ w with fgActive := false, sinkOpen := false },
       [Ev.stopStream, Ev.closeSink],
       if env.closeFails then some closeErrMsg else none)

/-- Result of running a strategy function: the updated profiler, the
updated world, the effects performed during setup, and the Go return
values `(FinalizerFunc, error)`. -/
structure SetupResult where
  profiler : ProfilerS
  world : World
  events : List Ev
  finalizer : Option Teardown
  error : Option String
deriving DecidableEq, Repr

/-- The success path of `p.SetProfileFile(name)`: the profile file is
created under the configured folder and the sink is now open. The fatal
path (file creation failing) is modelled by `SetProfileFileOutcome`. -/
def setProfileFile (p : ProfilerS) (w : World) (name : String) : ProfilerS × World :=
  ({ p with profileFileName := p.profileFolder ++ "/" ++ name },
   { w with sinkOpen := true })

/-- The nine strategy functions of strategy.go. Each mirrors its Go body:
the file is opened first via `SetProfileFile`; the mutex and goroutine
strategies write their pprof snapshot during setup; the cpu and trace
strategies start a streaming capture and propagate its error, returning
`(nil, err)` with the sink left as it is; the memory strategies read the
current `runtime.MemProfileRate` before overwriting it and capture the
saved value in their finalizer. -/
def runSetup : Strategy → ProfilerS → Env → World → SetupResult
  | Strategy.cpu, p, env, w =>
      let pw := setProfileFile p w CPUFileName
      if env.startCPUFails then
        { profiler := pw.1, world := pw.2, events := [Ev.openSink],
          finalizer := none, error := some "could not start cpu profile" }
      else
        { profiler := pw.1, world := { pw.2 with cpuActive := true },
          events := [Ev.openSink], finalizer := some Teardown.cpu, error := none }
  | Strategy.heap, p, _env, w =>
      let saved := w.memProfileRate
      let pw := setProfileFile p w MemoryFileName
      { profiler := pw.1, world := { pw.2 with memProfileRate := p.memoryProfileRate },
        events := [Ev.openSink, Ev.setMemRate p.memoryProfileRate],
        finalizer := some (Teardown.memory heapProfileName saved), error := none }
  | Strategy.alloc, p, _env, w =>
      let saved := w.memProfileRate
      let pw := setProfileFile p w MemoryFileName
      { profiler := pw.1, world := { pw.2 with memProfileRate := p.memoryProfileRate },
        events := [Ev.openSink, Ev.setMemRate p.memoryProfileRate],
        finalizer := some (Teardown.memory allocProfileName saved), error := none }
  | Strategy.mutex, p, _env, w =>
      let pw := setProfileFile p w MutexFileName
      { profiler := pw.1, world := pw.2,
        events := [Ev.openSink, Ev.snapshotWrite "mutex"],
        finalizer := some Teardown.mutex, error := none }
  | Strategy.block, p, _env, w =>
      let pw := setProfileFile p w BlockFileName
      { profiler := pw.1, world := pw.2,
        events := [Ev.openSink],
        finalizer := some Teardown.block, error := none }
  | Strategy.goroutine, p, _env, w =>
      let pw := setProfileFile p w GoroutineFileName
      { profiler := pw.1, world := pw.2,
        events := [Ev.openSink, Ev.snapshotWrite "goroutine"],
        finalizer := some Teardown.goroutine, error := none }
  | Strategy.threadCreate, p, _env, w =>
      let pw := setProfileFile p w ThreadCreateFileName
      { profiler := pw.1, world := pw.2,
        events := [Ev.openSink],
        finalizer := some Teardown.threadCreate, error := none }
  | Strategy.traceStrat, p, env, w =>
      let pw := setProfileFile p w TraceFileName
      if env.traceStartFails then
        { profiler := pw.1, world := pw.2, events := [Ev.openSink],
          finalizer := none, error := some "could not start trace" }
      else
        { profiler := pw.1, world := { pw.2 with traceActive := true },
          events := [Ev.openSink], finalizer := some Teardown.traceTd, error := none }
  | Strategy.clock, p, _env, w =>
      let pw := setProfileFile p w ClockFileName
      { profiler := pw.1, world := { pw.2 with fgActive := true },
        events := [Ev.openSink],
        finalizer := some Teardown.clock, error := none }

/-- State of the process-wide guard `profilingActive` together with a
ghost counter of sessions currently holding the guard and a flag marking
that a fatal misuse `die` already terminated the process. -/
structure GuardState where
  active : Bool
  sessions : Nat
  dead : Bool
deriving DecidableEq, Repr

/-- The two operations that touch the guard. -/
inductive GuardOp
  | startOp
  | stopOp
deriving DecidableEq, Repr

/-- One atomic compare-and-swap attempt on the guard, as performed by
`Start` (CAS 0 to 1, `die` on failure) and `Stop` (CAS 1 to 0, `die` on
failure). A dead process performs no further transitions. -/
def guardStep (s : GuardState) (op : GuardOp) : GuardState :=
  if s.dead then s
  else
    match op with
    | GuardOp.startOp =>
        if s.active then { s with dead := true }
        else { active := true, sessions := s.sessions + 1, dead := false }
    | GuardOp.stopOp =>
        if s.active then { active := false, sessions := s.sessions - 1, dead := false }
        else { s with dead := true }

/-- The initial guard state of the process: idle, no session, alive. -/
def guardInit : GuardState :=
  { active := false, sessions := 0, dead := false }

/-- Run a serialized history of Start and Stop guard operations. Because
each Go transition is a single atomic compare-and-swap, every concurrent
interleaving is equivalent to some serialized history. -/
def guardRun (ops : List GuardOp) : GuardState :=
  ops.foldl guardStep guardInit

/-- Steps of the `Stop` sequence, in execution order. -/
inductive StopStep
  | casGuard
  | finalizerRun
  | callbackRun
  | reportEmit (line : String)
  | fatalDie (msg : String)
deriving DecidableEq, Repr

/-- Kernel-reducible test that `s` ends with `suf` (Go
`strings.HasSuffix`). -/
def strEndsWith (s suf : String) : Bool :=
  decide (s.data.drop (s.data.length - suf.data.length) = suf.data)

/-- Kernel-reducible test that `s` starts with `pre` (used to decide
whether a path is already absolute). -/
def strStartsWith (s pre : String) : Bool :=
  decide (s.data.take pre.data.length = pre.data)

/-- Behaviour of `filepath.Abs`: resolve against the working directory
when the path is relative (path cleaning is not modelled; the error
return of `filepath.Abs` is treated as never failing). -/
def absolutePath (cwd path : String) : String :=
  if strStartsWith path "/" then path else cwd ++ "/" ++ path

/-- Scan a reversed character list for the extension: the characters
before the last dot of the final path element, `none` when that element
has no dot. -/
def extScan : List Char → Option (List Char)
  | [] => none
  | c :: cs =>
      if c = '.' then some []
      else if c = '/' then none
      else (extScan cs).map (fun l => c :: l)

/-- Behaviour of `filepath.Ext`: the suffix starting at the final dot of
the final path element, empty when there is none. -/
def fileExt (s : String) : String :=
  match extScan s.data.reverse with
  | none => ""
  | some revExt => String.mk ('.' :: revExt.reverse)

/-- One `p.report(...)` call: emits the line unless quiet. -/
def emitIf (quiet : Bool) (line : String) : List String :=
  if quiet then [] else [line]

/-- The warning line emitted when `p.interrupted` is set. -/
def interruptWarning : String :=
  "[warning] profiling was interrupted, data may be incomplete"

/-- First report line of `Stop`, with the format verbs substituted. -/
def summaryLine (ext absP : String) : String :=
  "profiling completed.  You can find the " ++ ext ++ " file at " ++ absP

/-- Second report line of `Stop`: the suggested inspection command. -/
def commandLine (cmd absP : String) : String :=
  "to view the profile, run `" ++ cmd ++ " " ++ absP ++ "`"

/-- The two trailing report lines emitted for non-trace profiles. -/
def trailerLineA : String :=
  "port can be any ephemeral port you wish to use."

/-- Second trailing report line for non-trace profiles. -/
def trailerLineB : String :=
  "Graph interpretation is outlined here: https://github.com/google/pprof/blob/main/doc/README.md#graphical-reports"

/-- The reporting block of `Stop` (profiler.go lines 184 to 204): resolve
the absolute sink path, pick the inspection command by extension, then
emit the summary, the command hint, the interruption warning when the
flag is set, and the two pprof trailer lines for non-trace output; every
emission goes through `report` and so is dropped when quiet. -/
def reportLines (p : ProfilerS) (cwd : String) : List String :=
  let absP := absolutePath cwd p.profileFileName
  let ext := fileExt absP
  let wasTrace := strEndsWith absP ".out"
  let cmd := if wasTrace then "go tool trace" else "go tool pprof -http :8080"
  emitIf p.quiet (summaryLine ext absP)
    ++ emitIf p.quiet (commandLine cmd absP)
    ++ (if p.interrupted then emitIf p.quiet interruptWarning else [])
    ++ (if wasTrace then [] else emitIf p.quiet trailerLineA ++ emitIf p.quiet trailerLineB)

/-- The `Stop` method (profiler.go lines 173 to 205). Arguments: the
profiler, the guard value observed by the CAS, the outcome of invoking
the bound finalizer `p.finalizer()`, and the working directory used by
`filepath.Abs`. Returns the new guard value and the ordered step trace. -/
def Stop (p : ProfilerS) (guard : Bool) (finalizerError : Option String)
    (cwd : String) : Bool × List StopStep :=
  if guard then
    match finalizerError with
    | some e => (false, [StopStep.casGuard, StopStep.finalizerRun, StopStep.fatalDie e])
    | none =>
        (false,
          [StopStep.casGuard, StopStep.finalizerRun]
            ++ (if p.hasCallback then [StopStep.callbackRun] else [])
            ++ (reportLines p cwd).map StopStep.reportEmit)
  else
    (guard, [StopStep.fatalDie "profiler instance was not started"])

/-- The signal-watcher goroutine body spawned by `Start` (profiler.go
lines 258 to 266): on receipt of SIGINT or SIGTERM it reports, sets
`p.interrupted = true`, and then invokes `p.Stop()`. -/
def watcherStop (p : ProfilerS) (guard : Bool) (finalizerError : Option String)
    (cwd : String) : Bool × List StopStep :=
  let pre := (emitIf p.quiet "sigterm received, performing tear down").map StopStep.reportEmit
  let res := Stop { p with interrupted := true } guard finalizerError cwd
  (res.1, pre ++ res.2)

/-- Extract the emitted report lines from a step trace. -/
def stoppedLines (tr : List StopStep) : List String :=
  tr.filterMap (fun s =>
    match s with
    | StopStep.reportEmit line => some line
    | _ => none)

/-- File-system environment for `CreateProfileFile`: whether
`os.MkdirAll` succeeds on the requested folder, the directory returned by
`os.MkdirTemp` (`none` when it fails), and which paths `os.Create`
succeeds on. -/
structure FSEnv where
  mkdirAllOk : Bool
  mkdirTempResult : Option String
  createOk : String → Bool

/-- Go `CreateProfileFile` (file.go): try to create the full folder tree;
on failure fall back to a fresh temp directory, erroring if even that
fails; then create the profile file inside the chosen folder, erroring if
the creation fails. Returns the created file path. -/
def CreateProfileFile (env : FSEnv) (folder name : String) : Except String String :=
  let folderRes : Except String String :=
    if env.mkdirAllOk then Except.ok folder
    else
      match env.mkdirTempResult with
      | some tmp => Except.ok tmp
      | none => Except.error "failed to create temp folder"
  match folderRes with
  | Except.error e => Except.error e
  | Except.ok f =>
      let joined := f ++ "/" ++ name
      if env.createOk joined then Except.ok joined
      else Except.error "failed to create profile file"

/-- Outcome of `p.SetProfileFile(name)`: a fatal `die` when
`CreateProfileFile` errors, otherwise the created file path. -/
inductive SetFileOutcome
  | fatal (msg : String)
  | fileSet (path : String)
deriving DecidableEq, Repr

/-- Go `SetProfileFile` (profiler.go lines 210 to 216): any error from
`CreateProfileFile` is escalated to a fatal `die`. -/
def SetProfileFileOutcome (env : FSEnv) (p : ProfilerS) (name : String) : SetFileOutcome :=
  match CreateProfileFile env p.profileFolder name with
  | Except.error e => SetFileOutcome.fatal e
  | Except.ok path => SetFileOutcome.fileSet path

/-! ## Helper lemmas -/

/-- The guard invariant: the ghost session counter is 1 exactly when the
guard is active. It is preserved by every `guardStep`. -/
lemma guardStep_inv (s : GuardState) (op : GuardOp)
    (h : s.sessions = if s.active then 1 else 0) :
    (guardStep s op).sessions = if (guardStep s op).active then 1 else 0 := by
  unfold guardStep
  by_cases hd : s.dead
  · simpa [hd] using h
  · cases op
    · by_cases ha : s.active <;> simp [hd, ha] at h ⊢ <;> simp [h]
    · by_cases ha : s.active <;> simp [hd, ha] at h ⊢ <;> simp [h]

/-- The guard invariant holds after any serialized history of guard
operations starting from an invariant state. -/
lemma guardFold_inv (ops : List GuardOp) (s : GuardState)
    (h : s.sessions = if s.active then 1 else 0) :
    (ops.foldl guardStep s).sessions = if (ops.foldl guardStep s).active then 1 else 0 := by
  induction ops generalizing s with
  | nil => exact h
  | cons op ops ih => exact ih (guardStep s op) (guardStep_inv s op h)

/-- The summary line can never coincide with the interruption warning,
whatever the extension and path substituted into it. -/
lemma summaryLine_ne_warning (x y : String) : summaryLine x y ≠ interruptWarning := by
  intro h
  have h2 := congrArg String.data h
  simp [summaryLine, interruptWarning, String.data_append] at h2

/-- The command-hint line can never coincide with the interruption
warning, whatever the command and path substituted into it. -/
lemma commandLine_ne_warning (x y : String) : commandLine x y ≠ interruptWarning := by
  intro h
  have h2 := congrArg String.data h
  simp [commandLine, interruptWarning, String.data_append] at h2

/-- Folding options that do not touch the `interrupted` field leaves it
unchanged. -/
lemma foldl_options_interrupted (options : List ProfileOption) (q : ProfilerS)
    (h : ∀ o ∈ options, ∀ r : ProfilerS, (o r).interrupted = r.interrupted) :
    (options.foldl (fun p opt => opt p) q).interrupted = q.interrupted := by
  induction options generalizing q with
  | nil => rfl
  | cons o os ih =>
      rw [List.foldl_cons, ih (o q) (fun o2 ho2 r => h o2 (List.mem_cons_of_mem _ ho2) r),
        h o (List.mem_cons_self _ _)]

/-- Report lines are recovered from a step trace built out of an append. -/
lemma stoppedLines_append (a b : List StopStep) :
    stoppedLines (a ++ b) = stoppedLines a ++ stoppedLines b := by
  simp [stoppedLines, List.filterMap_append]

/-- Report lines are recovered from emission steps. -/
lemma stoppedLines_map (ls : List String) :
    stoppedLines (ls.map StopStep.reportEmit) = ls := by
  induction ls with
  | nil => rfl
  | cons l ls ih =>
      simp only [List.map_cons, stoppedLines, List.filterMap_cons] at ih ⊢
      simp [ih]

/-- The optional callback step emits no report line. -/
lemma stoppedLines_callback (c : Bool) :
    stoppedLines (if c then [StopStep.callbackRun] else []) = [] := by
  cases c <;> rfl

/-- The successful `Stop` trace emits exactly the report block. -/
lemma stoppedLines_stop_none (p : ProfilerS) (cwd : String) :
    stoppedLines (Stop p true none cwd).2 = reportLines p cwd := by
  show stoppedLines ([StopStep.casGuard, StopStep.finalizerRun]
      ++ (if p.hasCallback then [StopStep.callbackRun] else [])
      ++ (reportLines p cwd).map StopStep.reportEmit) = reportLines p cwd
  rw [stoppedLines_append, stoppedLines_append, stoppedLines_callback, stoppedLines_map]
  rfl

/-! ## Claim theorems -/

/-- C1: the process-wide guard admits only the transitions Idle to Active
(performed by Start) and Active to Idle (performed by Stop), each a single
atomic compare-and-swap; Start on an Active guard and Stop on an Idle
guard both fail fatally; and no serialized history of the atomic Start
and Stop transitions (hence no interleaving of the CAS operations) can
make two sessions simultaneously active. -/
theorem guard_exclusive :
    (∀ ops : List GuardOp, (guardRun ops).sessions ≤ 1)
    ∧ (∀ ops : List GuardOp,
        (guardRun ops).sessions = if (guardRun ops).active then 1 else 0)
    ∧ (∀ s : GuardState, s.dead = false → s.active = true →
        guardStep s GuardOp.startOp = { s with dead := true })
    ∧ (∀ s : GuardState, s.dead = false → s.active = false →
        guardStep s GuardOp.stopOp = { s with dead := true })
    ∧ (∀ s : GuardState, s.dead = false → s.active = false →
        guardStep s GuardOp.startOp =
          { active := true, sessions := s.sessions + 1, dead := false })
    ∧ (∀ s : GuardState, s.dead = false → s.active = true →
        guardStep s GuardOp.stopOp =
          { active := false, sessions := s.sessions - 1, dead := false }) := by
  have hinv : ∀ ops : List GuardOp,
      (guardRun ops).sessions = if (guardRun ops).active then 1 else 0 :=
    fun ops => guardFold_inv ops guardInit rfl
  refine ⟨fun ops => ?_, hinv, ?_, ?_, ?_, ?_⟩
  · rw [hinv ops]
    by_cases h : (guardRun ops).active <;> simp [h]
  · intro s hd ha
    simp [guardStep, hd, ha]
  · intro s hd ha
    simp [guardStep, hd, ha]
  · intro s hd ha
    simp [guardStep, hd, ha]
  · intro s hd ha
    simp [guardStep, hd, ha]

/-- Witness for C1 at concrete guard states. -/
theorem guard_exclusive_witness :
    guardStep { active := true, sessions := 1, dead := false } GuardOp.startOp
        = { active := true, sessions := 1, dead := true }
    ∧ guardStep { active := false, sessions := 0, dead := false } GuardOp.stopOp
        = { active := false, sessions := 0, dead := true } :=
  ⟨guard_exclusive.2.2.1 { active := true, sessions := 1, dead := false } rfl rfl,
   guard_exclusive.2.2.2.1 { active := false, sessions := 0, dead := false } rfl rfl⟩

/-- C3: for the heap and alloc memory strategies, the finalizer returned
by setup captures the global sampling rate read before setup mutated it,
and running that finalizer restores exactly that value, for every
configured session sampling rate, from any intermediate state, and
whether or not the sink close inside the teardown fails. -/
theorem memory_rate_roundtrip (p : ProfilerS) (env envT : Env) (w wMid : World) :
    ((runSetup Strategy.heap p env w).finalizer
        = some (Teardown.memory heapProfileName w.memProfileRate)
      ∧ (runTeardown (Teardown.memory heapProfileName w.memProfileRate) envT wMid).1.memProfileRate
        = w.memProfileRate)
    ∧ ((runSetup Strategy.alloc p env w).finalizer
        = some (Teardown.memory allocProfileName w.memProfileRate)
      ∧ (runTeardown (Teardown.memory allocProfileName w.memProfileRate) envT wMid).1.memProfileRate
        = w.memProfileRate)
    ∧ (runSetup Strategy.heap p env w).world.memProfileRate = p.memoryProfileRate
    ∧ (runSetup Strategy.alloc p env w).world.memProfileRate = p.memoryProfileRate :=
  ⟨⟨rfl, rfl⟩, ⟨rfl, rfl⟩, rfl, rfl⟩

/-- C4: the CPU finalizer stops the streaming capture and then closes the
sink, in that order; the trace finalizer, however, only stops the capture
and returns without ever closing the sink, so the sink-close step is not
executed by the time Stop completes for trace mode. This theorem records
the code behaviour at the failing configuration. -/
theorem trace_teardown_skips_close (env : Env) (w : World) :
    ((runTeardown Teardown.traceTd env w).2.1 = [Ev.stopStream]
      ∧ (runTeardown Teardown.traceTd env w).1.sinkOpen = w.sinkOpen)
    ∧ ((runTeardown Teardown.cpu env w).2.1 = [Ev.stopStream, Ev.closeSink]
      ∧ (runTeardown Teardown.cpu env w).1.sinkOpen = false) :=
  ⟨⟨rfl, rfl⟩, rfl, rfl⟩

/-- C5 counterexample: running the CPU strategy in an environment where
`pprof.StartCPUProfile` fails returns an error and no finalizer, yet the
profile file opened by `SetProfileFile` remains open, contradicting the
claim that on error no sink remains open. -/
theorem setup_error_sink_left_open :
    (runSetup Strategy.cpu defaultProfiler
        { startCPUFails := true, traceStartFails := false, closeFails := false }
        { memProfileRate := 524288, mutexProfileFraction := 1, blockProfileRate := 0,
          cpuActive := false, traceActive := false, fgActive := false,
          sinkOpen := false }).error = some "could not start cpu profile"
    ∧ (runSetup Strategy.cpu defaultProfiler
        { startCPUFails := true, traceStartFails := false, closeFails := false }
        { memProfileRate := 524288, mutexProfileFraction := 1, blockProfileRate := 0,
          cpuActive := false, traceActive := false, fgActive := false,
          sinkOpen := false }).finalizer = none
    ∧ (runSetup Strategy.cpu defaultProfiler
        { startCPUFails := true, traceStartFails := false, closeFails := false }
        { memProfileRate := 524288, mutexProfileFraction := 1, blockProfileRate := 0,
          cpuActive := false, traceActive := false, fgActive := false,
          sinkOpen := false }).world.cpuActive = false
    ∧ (runSetup Strategy.cpu defaultProfiler
        { startCPUFails := true, traceStartFails := false, closeFails := false }
        { memProfileRate := 524288, mutexProfileFraction := 1, blockProfileRate := 0,
          cpuActive := false, traceActive := false, fgActive := false,
          sinkOpen := false }).world.sinkOpen = true :=
  ⟨rfl, rfl, rfl, rfl⟩

/-- C5 (amended): for every strategy, setup returns exactly one of a
finalizer or an error; whenever it returns an error, no capture started
by this setup remains active (the capture flags are unchanged from their
pre-setup values), but the output sink opened during setup remains open. -/
theorem setup_exactly_one_error_no_capture (s : Strategy) (p : ProfilerS)
    (env : Env) (w : World) :
    ((runSetup s p env w).finalizer.isSome = true ↔ (runSetup s p env w).error = none)
    ∧ ((runSetup s p env w).error.isSome = true →
        (runSetup s p env w).world.cpuActive = w.cpuActive
        ∧ (runSetup s p env w).world.traceActive = w.traceActive
        ∧ (runSetup s p env w).world.fgActive = w.fgActive
        ∧ (runSetup s p env w).world.sinkOpen = true) := by
  obtain ⟨scf, tsf, cf⟩ := env
  cases s <;> cases scf <;> cases tsf <;>
    simp [runSetup, setProfileFile]

/-- Witness for C5 at the trace strategy with a failing `trace.Start`. -/
theorem setup_exactly_one_witness :
    (runSetup Strategy.traceStrat defaultProfiler
        { startCPUFails := false, traceStartFails := true, closeFails := false }
        { memProfileRate := 524288, mutexProfileFraction := 1, blockProfileRate := 0,
          cpuActive := false, traceActive := false, fgActive := false,
          sinkOpen := false }).world.sinkOpen = true :=
  ((setup_exactly_one_error_no_capture Strategy.traceStrat defaultProfiler
      { startCPUFails := false, traceStartFails := true, closeFails := false }
      { memProfileRate := 524288, mutexProfileFraction := 1, blockProfileRate := 0,
        cpuActive := false, traceActive := false, fgActive := false,
        sinkOpen := false }).2 rfl).2.2.2

/-- C8 counterexample: in an environment where the configured folder
cannot be created and the temp-folder fallback also fails, while creating
the profile file itself would always succeed, `CreateProfileFile` still
escalates an error, and that error is the temp-folder failure, not a
profile-file-creation failure. -/
theorem temp_folder_failure_escalates :
    CreateProfileFile
        { mkdirAllOk := false, mkdirTempResult := none, createOk := fun _ => true }
        "/out" "cpu.pprof"
      = Except.error "failed to create temp folder"
    ∧ "failed to create temp folder" ≠ "failed to create profile file" :=
  ⟨rfl, by decide⟩

/-- C8 (amended): when the configured folder can be created the profile
file is created under it; when it cannot, the call falls back to the temp
directory and the file is created there; a failure to create the temp
directory, or a subsequent failure to create the profile file itself, is
returned as an error, which `SetProfileFile` escalates to a fatal exit. -/
theorem create_profile_file_fallback (env : FSEnv) (folder name : String) :
    (env.mkdirAllOk = true →
        CreateProfileFile env folder name =
          (if env.createOk (folder ++ "/" ++ name) then Except.ok (folder ++ "/" ++ name)
           else Except.error "failed to create profile file"))
    ∧ (∀ tmp, env.mkdirAllOk = false → env.mkdirTempResult = some tmp →
        CreateProfileFile env folder name =
          (if env.createOk (tmp ++ "/" ++ name) then Except.ok (tmp ++ "/" ++ name)
           else Except.error "failed to create profile file"))
    ∧ (env.mkdirAllOk = false → env.mkdirTempResult = none →
        CreateProfileFile env folder name = Except.error "failed to create temp folder")
    ∧ (∀ e, CreateProfileFile env folder name = Except.error e →
        SetProfileFileOutcome env { defaultProfiler with profileFolder := folder } name
          = SetFileOutcome.fatal e) := by
  obtain ⟨mk, mt, cr⟩ := env
  refine ⟨?_, ?_, ?_, ?_⟩
  · intro h
    subst h
    simp [CreateProfileFile]
  · intro tmp h1 h2
    subst h1
    change mt = some tmp at h2
    subst h2
    simp [CreateProfileFile]
  · intro h1 h2
    subst h1
    change mt = none at h2
    subst h2
    simp [CreateProfileFile]
  · intro e he
    simp [SetProfileFileOutcome, defaultProfiler, he]

/-- Witness for C8 in an environment where folder creation fails and the
temp fallback succeeds. -/
theorem create_profile_file_fallback_witness :
    CreateProfileFile
        { mkdirAllOk := false, mkdirTempResult := some "/tmp/profiler123",
          createOk := fun _ => true } "/out" "cpu.pprof"
      = Except.ok "/tmp/profiler123/cpu.pprof" := by
  have h := (create_profile_file_fallback
      { mkdirAllOk := false, mkdirTempResult := some "/tmp/profiler123",
        createOk := fun _ => true } "/out" "cpu.pprof").2.1 "/tmp/profiler123" rfl rfl
  simpa using h

/-- C9: the `WithMutexFraction` option discards its numeric argument
entirely: applying it with any two rates yields identical profiler
configurations, its only effect is selecting mutex mode, and neither the
mutex strategy setup nor its finalizer ever touches the runtime mutex
profile fraction. -/
theorem mutex_fraction_discarded :
    (∀ r1 r2 : Int, ∀ p : ProfilerS, WithMutexFraction r1 p = WithMutexFraction r2 p)
    ∧ (∀ r : Int, ∀ p : ProfilerS, (WithMutexFraction r p).profileMode = MutexMode)
    ∧ (∀ p env w,
        (runSetup Strategy.mutex p env w).world.mutexProfileFraction
          = w.mutexProfileFraction)
    ∧ (∀ envT wT,
        (runTeardown Teardown.mutex envT wT).1.mutexProfileFraction
          = wT.mutexProfileFraction) :=
  ⟨fun _ _ _ => rfl, fun _ _ => rfl, fun _ _ _ => rfl, fun _ _ => rfl⟩

/-- C10: the mutex and goroutine strategies write their pprof snapshot to
the sink during setup, and the finalizer each returns performs exactly
one effect, closing the sink, writing no further data. -/
theorem snapshot_at_setup (p : ProfilerS) (env envT : Env) (w wT : World) :
    ((runSetup Strategy.mutex p env w).events = [Ev.openSink, Ev.snapshotWrite "mutex"]
      ∧ (runSetup Strategy.mutex p env w).finalizer = some Teardown.mutex
      ∧ (runTeardown Teardown.mutex envT wT).2.1 = [Ev.closeSink]
      ∧ (runTeardown Teardown.mutex envT wT).1 = { wT with sinkOpen := false })
    ∧ ((runSetup Strategy.goroutine p env w).events
          = [Ev.openSink, Ev.snapshotWrite "goroutine"]
      ∧ (runSetup Strategy.goroutine p env w).finalizer = some Teardown.goroutine
      ∧ (runTeardown Teardown.goroutine envT wT).2.1 = [Ev.closeSink]
      ∧ (runTeardown Teardown.goroutine envT wT).1 = { wT with sinkOpen := false }) :=
  ⟨⟨rfl, rfl, rfl, rfl⟩, rfl, rfl, rfl, rfl⟩

/-- C2: `Stop` performs, in order, the guard CAS (fatal when the guard is
idle), the bound finalizer invocation (fatal when it errors), the user
callback when one is configured, and the report block; the report block,
when not quiet, emits the summary naming the resolved absolute sink path,
the suggested inspection command, the interruption warning exactly when
the interrupted flag is set, and the pprof trailer lines for non-trace
output; when quiet, nothing is emitted. -/
theorem stop_sequence (p : ProfilerS) (cwd e : String) :
    (Stop p false (some e) cwd).2 = [StopStep.fatalDie "profiler instance was not started"]
    ∧ (Stop p true (some e) cwd).2
        = [StopStep.casGuard, StopStep.finalizerRun, StopStep.fatalDie e]
    ∧ (Stop p true none cwd).2
        = [StopStep.casGuard, StopStep.finalizerRun]
            ++ (if p.hasCallback then [StopStep.callbackRun] else [])
            ++ (reportLines p cwd).map StopStep.reportEmit
    ∧ (p.quiet = true → reportLines p cwd = [])
    ∧ (p.quiet = false →
        reportLines p cwd =
          [summaryLine (fileExt (absolutePath cwd p.profileFileName))
              (absolutePath cwd p.profileFileName),
           commandLine
              (if strEndsWith (absolutePath cwd p.profileFileName) ".out"
               then "go tool trace" else "go tool pprof -http :8080")
              (absolutePath cwd p.profileFileName)]
            ++ (if p.interrupted then [interruptWarning] else [])
            ++ (if strEndsWith (absolutePath cwd p.profileFileName) ".out"
                then [] else [trailerLineA, trailerLineB]))
    ∧ (∃ a b, summaryLine (fileExt (absolutePath cwd p.profileFileName))
          (absolutePath cwd p.profileFileName)
            = a ++ absolutePath cwd p.profileFileName ++ b) := by
  refine ⟨rfl, rfl, rfl, ?_, ?_, ?_⟩
  · intro hq
    simp [reportLines, emitIf, hq]
  · intro hq
    by_cases hw : strEndsWith (absolutePath cwd p.profileFileName) ".out" <;>
      by_cases hi : p.interrupted <;>
        simp [reportLines, emitIf, hq, hw, hi]
  · refine ⟨"profiling completed.  You can find the "
        ++ fileExt (absolutePath cwd p.profileFileName) ++ " file at ", "", ?_⟩
    simp [summaryLine]

/-- Witness for C2 at a concrete non-quiet, interrupted session. -/
theorem stop_sequence_witness :
    reportLines
        { profileFolder := "/tmp/x", profileFileName := "/tmp/x/cpu.pprof",
          signalHandling := true, profileMode := 0, memoryProfileRate := 524288,
          quiet := false, hasCallback := false, live := false, interrupted := true }
        "/w"
      = [summaryLine ".pprof" "/tmp/x/cpu.pprof",
         commandLine "go tool pprof -http :8080" "/tmp/x/cpu.pprof",
         interruptWarning, trailerLineA, trailerLineB] := by
  have h := (stop_sequence
      { profileFolder := "/tmp/x", profileFileName := "/tmp/x/cpu.pprof",
        signalHandling := true, profileMode := 0, memoryProfileRate := 524288,
        quiet := false, hasCallback := false, live := false, interrupted := true }
      "/w" "boom").2.2.2.2.1 rfl
  exact h.trans (by decide)

/-- C6: the registry has exactly the nine modes as keys, each mapped to
its own strategy; an unknown mode value is fatally rejected by `Start`;
and every strategy writes to its fixed, mode-specific file name under the
configured folder, the heap and alloc strategies sharing the single name
`memory.pprof`. -/
theorem registry_and_filenames :
    (StrategyMap CPUMode = some Strategy.cpu
      ∧ StrategyMap MemoryHeapMode = some Strategy.heap
      ∧ StrategyMap MemoryAllocMode = some Strategy.alloc
      ∧ StrategyMap BlockMode = some Strategy.block
      ∧ StrategyMap GoroutineMode = some Strategy.goroutine
      ∧ StrategyMap MutexMode = some Strategy.mutex
      ∧ StrategyMap ThreadCreateMode = some Strategy.threadCreate
      ∧ StrategyMap TraceMode = some Strategy.traceStrat
      ∧ StrategyMap ClockMode = some Strategy.clock)
    ∧ (∀ m : Int, (StrategyMap m).isSome = true ↔
        (m = CPUMode ∨ m = MemoryHeapMode ∨ m = MemoryAllocMode ∨ m = BlockMode
          ∨ m = GoroutineMode ∨ m = MutexMode ∨ m = ThreadCreateMode
          ∨ m = TraceMode ∨ m = ClockMode))
    ∧ (∀ m : Int, StrategyMap m = none →
        resolveStrategy m
          = StartOutcome.fatal "profiler mode not implemented, this should never happen")
    ∧ (∀ (p : ProfilerS) (env : Env) (w : World),
        (runSetup Strategy.cpu p env w).profiler.profileFileName
            = p.profileFolder ++ "/" ++ "cpu.pprof"
        ∧ (runSetup Strategy.heap p env w).profiler.profileFileName
            = p.profileFolder ++ "/" ++ "memory.pprof"
        ∧ (runSetup Strategy.alloc p env w).profiler.profileFileName
            = p.profileFolder ++ "/" ++ "memory.pprof"
        ∧ (runSetup Strategy.block p env w).profiler.profileFileName
            = p.profileFolder ++ "/" ++ "block.pprof"
        ∧ (runSetup Strategy.goroutine p env w).profiler.profileFileName
            = p.profileFolder ++ "/" ++ "goroutine.pprof"
        ∧ (runSetup Strategy.mutex p env w).profiler.profileFileName
            = p.profileFolder ++ "/" ++ "mutex.pprof"
        ∧ (runSetup Strategy.threadCreate p env w).profiler.profileFileName
            = p.profileFolder ++ "/" ++ "threadcreate.pprof"
        ∧ (runSetup Strategy.traceStrat p env w).profiler.profileFileName
            = p.profileFolder ++ "/" ++ "trace.out"
        ∧ (runSetup Strategy.clock p env w).profiler.profileFileName
            = p.profileFolder ++ "/" ++ "clock.pprof") := by
  refine ⟨⟨rfl, rfl, rfl, rfl, rfl, rfl, rfl, rfl, rfl⟩, ?_, ?_, ?_⟩
  · intro m
    unfold StrategyMap
    split_ifs <;> simp_all
  · intro m h
    simp [resolveStrategy, h]
  · intro p env w
    cases hc : env.startCPUFails <;> cases ht : env.traceStartFails <;>
      refine ⟨?_, rfl, rfl, rfl, rfl, rfl, rfl, ?_, rfl⟩ <;>
        simp [runSetup, setProfileFile, hc, ht, CPUFileName, TraceFileName]

/-- Witness for C6 at the out-of-range mode value 42. -/
theorem registry_and_filenames_witness :
    resolveStrategy 42
      = StartOutcome.fatal "profiler mode not implemented, this should never happen" :=
  registry_and_filenames.2.2.1 42 rfl

/-- C7: the interrupt watcher sets the interrupted flag and then runs the
Stop sequence, whose report contains the distinct warning line (when not
quiet); a caller-triggered Stop on a session whose interrupted flag is
unset emits no such warning; and the flag starts unset after `New` for
any options that do not touch it. -/
theorem interrupt_warning_report (p : ProfilerS) (cwd : String) :
    (watcherStop p true none cwd).2
        = (emitIf p.quiet "sigterm received, performing tear down").map StopStep.reportEmit
            ++ (Stop { p with interrupted := true } true none cwd).2
    ∧ (p.quiet = false →
        interruptWarning ∈ stoppedLines (watcherStop p true none cwd).2)
    ∧ (p.interrupted = false →
        interruptWarning ∉ stoppedLines (Stop p true none cwd).2)
    ∧ (∀ options : List ProfileOption,
        (∀ o ∈ options, ∀ r : ProfilerS, (o r).interrupted = r.interrupted) →
        (New options).interrupted = false) := by
  refine ⟨rfl, ?_, ?_, ?_⟩
  · intro hq
    show interruptWarning ∈ stoppedLines
      ((emitIf p.quiet "sigterm received, performing tear down").map StopStep.reportEmit
        ++ (Stop { p with interrupted := true } true none cwd).2)
    rw [stoppedLines_append, stoppedLines_map, stoppedLines_stop_none]
    have : p.interrupted = true ∨ p.interrupted = false := by
      cases p.interrupted <;> simp
    simp [reportLines, emitIf, hq, List.mem_append]
  · intro hi
    rw [stoppedLines_stop_none]
    have hs := summaryLine_ne_warning
      (fileExt (absolutePath cwd p.profileFileName)) (absolutePath cwd p.profileFileName)
    have hc1 := commandLine_ne_warning "go tool trace" (absolutePath cwd p.profileFileName)
    have hc2 := commandLine_ne_warning "go tool pprof -http :8080"
      (absolutePath cwd p.profileFileName)
    have ha : interruptWarning ≠ trailerLineA := by decide
    have hb : interruptWarning ≠ trailerLineB := by decide
    by_cases hq : p.quiet <;>
      by_cases hw : strEndsWith (absolutePath cwd p.profileFileName) ".out" <;>
        simp [reportLines, emitIf, hi, hq, hw, Ne.symm hs, Ne.symm hc1, Ne.symm hc2, ha, hb]
  · intro options h
    exact foldl_options_interrupted options defaultProfiler h

/-- Witness for C7 at a concrete non-quiet session. -/
theorem interrupt_warning_report_witness :
    interruptWarning ∈ stoppedLines
      (watcherStop
        { profileFolder := "/tmp/x", profileFileName := "/tmp/x/cpu.pprof",
          signalHandling := true, profileMode := 0, memoryProfileRate := 524288,
          quiet := false, hasCallback := false, live := false, interrupted := false }
        true none "/w").2 :=
  (interrupt_warning_report
    { profileFolder := "/tmp/x", profileFileName := "/tmp/x/cpu.pprof",
      signalHandling := true, profileMode := 0, memoryProfileRate := 524288,
      quiet := false, hasCallback := false, live := false, interrupted := false }
    "/w").2.1 rfl

end Profiler
